import Mathlib

/-!
Shallow embedding of the SafeVision client-side adaptive frame-streaming and
backpressure controller (static camera page script).  Times are modelled as
integer milliseconds, JavaScript numbers used for rates and qualities as
rationals, and each event handler of the script becomes a pure function on an
explicit state record.  Timers are modelled by their armed/scheduled status:
the capture `setInterval` and the stall-warning `setTimeout` as booleans, the
processing-failsafe `setTimeout` as an optional scheduled fire time.
-/

set_option autoImplicit false

namespace SafeVision

/-- The subset of the persisted settings object read by the control loop
(`loadSettings` defaults: frameRate 5, videoQuality 0.8, adaptiveFrameRate
true, maxFrameRate 10, minFrameRate 2). -/
structure Settings where
  frameRate : ℚ
  videoQuality : ℚ
  adaptiveFrameRate : Bool
  maxFrameRate : ℚ
  minFrameRate : ℚ
  deriving Repr, DecidableEq

/-- Default settings from `loadSettings`. -/
def defaultSettings : Settings :=
  { frameRate := 5
    videoQuality := 0.8
    adaptiveFrameRate := true
    maxFrameRate := 10
    minFrameRate := 2 }

/-- An incoming `processed_frame` socket message: whether `data && data.frame`
is present, the payload `byteLength`, and `data.timestamp` (JavaScript-falsy
when 0, in which case latency tracking is skipped). -/
structure FrameMsg where
  hasFrame : Bool
  frameLen : ℕ
  timestamp : ℤ
  deriving Repr, DecidableEq

/-- Client controller state: the module-level mutable variables of the camera
script that the control loop reads and writes. -/
structure ClientState where
  isStreaming : Bool
  frameCount : ℕ
  /-- Number of `socket.emit("process_frame", ...)` calls performed (ghost
  observability counter for "a send was invoked"). -/
  sendCount : ℕ
  lastProcessedFrameTime : ℤ
  pendingFrames : ℤ
  lastFrameSentTime : ℤ
  currentAdaptiveFrameRate : ℚ
  processingLatencies : List ℤ
  frameDropCount : ℕ
  isFrameBeingProcessed : Bool
  fallbackMode : Bool
  /-- Whether the raw `<video>` element is displayed (fallback local display)
  instead of the processed-frame canvas. -/
  videoShown : Bool
  /-- Whether the `frameInterval` capture `setInterval` is armed. -/
  frameIntervalActive : Bool
  /-- Whether the `processingTimeoutWarning` stall `setTimeout` is set. -/
  processingTimeoutWarning : Bool
  /-- Scheduled fire time of the `processingFailsafeTimer` `setTimeout`,
  `none` when cleared or already consumed. -/
  processingFailsafeTimer : Option ℤ
  deriving Repr, DecidableEq

/-- Initial values of the module-level variables at script load. -/
def initState : ClientState :=
  { isStreaming := false
    frameCount := 0
    sendCount := 0
    lastProcessedFrameTime := 0
    pendingFrames := 0
    lastFrameSentTime := 0
    currentAdaptiveFrameRate := 5
    processingLatencies := []
    frameDropCount := 0
    isFrameBeingProcessed := false
    fallbackMode := false
    videoShown := false
    frameIntervalActive := false
    processingTimeoutWarning := false
    processingFailsafeTimer := none }

/-- Embeds the `getEffectiveFrameRate` closure inside `startFrameCapture`. -/
def getEffectiveFrameRate (s : Settings) (r : ℚ) : ℚ :=
  if ¬s.adaptiveFrameRate then s.frameRate
  else max s.minFrameRate (min s.maxFrameRate r)

/-- Moving average over the latency window
(`processingLatencies.reduce((a, b) => a + b, 0) / processingLatencies.length`). -/
def movingAvg (l : List ℤ) : ℚ :=
  (l.sum : ℚ) / (l.length : ℚ)

/-- Embeds `processingLatencies.push(latency)` followed by the capacity-10 trim
(`if (processingLatencies.length > 10) processingLatencies.shift()`). -/
def pushLatency (l : List ℤ) (x : ℤ) : List ℤ :=
  let l2 := l ++ [x]
  if l2.length > 10 then l2.drop 1 else l2

/-- Embeds `slice(-n)`: the `n` most recent entries of the window. -/
def lastN (n : ℕ) (l : List ℤ) : List ℤ :=
  l.drop (l.length - n)

/-- The latency-band frame-rate adjustment of the `processed_frame` handler
(`avgLatency > 2000` ⇒ −1, `> 1000` ⇒ −0.5, `< 300` ⇒ +0.5, `< 500` ⇒ +0.2,
each one-sidedly clamped exactly as in the source). -/
def adjustAdaptiveRate (s : Settings) (avg r : ℚ) : ℚ :=
  if avg > 2000 then max s.minFrameRate (r - 1)
  else if avg > 1000 then max s.minFrameRate (r - 0.5)
  else if avg < 300 then min s.maxFrameRate (r + 0.5)
  else if avg < 500 then min s.maxFrameRate (r + 0.2)
  else r

/-- The "reset towards base frame rate" block of the `processed_frame`
handler: requires `avgLatency < 400`, `pendingFrames === 0` (read before the
decrement for the current result), window length ≥ 5, the five most recent
latencies all < 500, and the current rate strictly below the configured base
rate; then `current := min(base, current + 0.3)`. -/
def recoveryAdjust (s : Settings) (w : List ℤ) (avg : ℚ) (pending : ℤ) (r : ℚ) : ℚ :=
  if avg < 400 ∧ pending = 0 ∧ 5 ≤ w.length then
    if (∀ l ∈ lastN 5 w, l < 500) ∧ r < s.frameRate then
      min s.frameRate (r + 0.3)
    else r
  else r

/-- Latency bookkeeping and adaptive-rate update performed by the
`processed_frame` handler when `data.timestamp` is truthy: push the new
latency into the window (capacity 10), and once adaptive mode is on and the
window holds at least 3 entries run the band adjustment followed by the
recovery rule.  Returns the new window and rate. -/
def latencyRateUpdate (s : Settings) (now ts : ℤ) (pending : ℤ)
    (lats : List ℤ) (r : ℚ) : List ℤ × ℚ :=
  if ts ≠ 0 then
    let w := pushLatency lats (now - ts)
    if s.adaptiveFrameRate ∧ 3 ≤ w.length then
      let avg := movingAvg w
      let r1 := adjustAdaptiveRate s avg r
      (w, recoveryAdjust s w avg pending r1)
    else (w, r)
  else (lats, r)

/-- Embeds `enableFallbackMode`: no-op when already in fallback, otherwise switch to
local display (show the raw video element, hide the processed canvas). -/
def enableFallbackMode (st : ClientState) : ClientState :=
  if st.fallbackMode then st
  else { st with fallbackMode := true, videoShown := true }

/-- Embeds `disableFallbackMode`: no-op when not in fallback, otherwise restore the
processed-canvas display. -/
def disableFallbackMode (st : ClientState) : ClientState :=
  if ¬st.fallbackMode then st
  else { st with fallbackMode := false, videoShown := false }

/-- Embeds `setupProcessingFailsafe`: clear any pending failsafe timeout and schedule
a fresh one 10000 ms from now. -/
def setupProcessingFailsafe (now : ℤ) (st : ClientState) : ClientState :=
  { st with processingFailsafeTimer := some (now + 10000) }

/-- The body of the failsafe `setTimeout` callback, run when the scheduled
timeout fires (the timer is consumed by firing): enable fallback mode iff
more than 10000 ms have passed since the last processed frame. -/
def failsafeFire (now : ℤ) (st : ClientState) : ClientState :=
  let st1 := { st with processingFailsafeTimer := none }
  if now - st1.lastProcessedFrameTime > 10000 then enableFallbackMode st1
  else st1

/-- The recovery statements shared by both catch paths of the
`processed_frame` handler: decrement the pending count (floored at 0) and
clear the processing flag. -/
def errorRecover (st : ClientState) : ClientState :=
  { st with pendingFrames := max 0 (st.pendingFrames - 1)
            isFrameBeingProcessed := false }

/-- The `processed_frame` socket handler.  `threw` models a synchronous throw
caught by the outer try/catch after the payload guard; `decodeOk` models
whether `createImageBitmap` resolved (its rejection is handled by the
`.catch`).  An absent or empty payload is logged and the handler returns
early, touching no state.  On the successful path: leave fallback mode if
active, rearm the failsafe timer, record the success time, cancel the stall
warning, run latency/rate bookkeeping (timestamp truthy only), then decrement
the pending count (floor 0) and clear the processing flag. -/
def onProcessedFrame (s : Settings) (now : ℤ) (msg : FrameMsg)
    (threw decodeOk : Bool) (st : ClientState) : ClientState :=
  if ¬msg.hasFrame ∨ msg.frameLen = 0 then st
  else if threw then errorRecover st
  else if ¬decodeOk then errorRecover st
  else
    let st1 := if st.fallbackMode then disableFallbackMode st else st
    let st2 := setupProcessingFailsafe now st1
    let st3 := { st2 with lastProcessedFrameTime := now
                          processingTimeoutWarning := false }
    let p := latencyRateUpdate s now msg.timestamp st3.pendingFrames
      st3.processingLatencies st3.currentAdaptiveFrameRate
    { st3 with processingLatencies := p.1
               currentAdaptiveFrameRate := p.2
               pendingFrames := max 0 (st3.pendingFrames - 1)
               isFrameBeingProcessed := false }

/-- The dynamic quality computation of the capture tick (pure, derived each
tick, never stored). -/
def dynamicQuality (s : Settings) (pending : ℤ) (lats : List ℤ) : ℚ :=
  if s.adaptiveFrameRate then
    if pending > 2 then max 0.3 (s.videoQuality - 0.3)
    else if pending > 1 then max 0.5 (s.videoQuality - 0.2)
    else if lats.length > 0 ∧ movingAvg lats > 1000 then
      max 0.4 (s.videoQuality - 0.2)
    else s.videoQuality
  else s.videoQuality

/-- One invocation of the `frameInterval` callback.  `videoReady` models
`video.readyState === video.HAVE_ENOUGH_DATA`; `blobOk` models the
`toBlob`/`FileReader` callback chain completing with a non-null blob (the
send and its bookkeeping happen inside that callback). -/
def frameTick (s : Settings) (videoReady : Bool) (now : ℤ) (blobOk : Bool)
    (st : ClientState) : ClientState :=
  if ¬videoReady then st
  else
    let eff := getEffectiveFrameRate s st.currentAdaptiveFrameRate
    if ((now - st.lastFrameSentTime : ℤ) : ℚ) < 1000 / eff then st
    else if st.pendingFrames > 3 then
      { st with
        frameDropCount := st.frameDropCount + 1
        currentAdaptiveFrameRate :=
          if s.adaptiveFrameRate then
            max s.minFrameRate (st.currentAdaptiveFrameRate - 0.5)
          else st.currentAdaptiveFrameRate }
    else if st.isFrameBeingProcessed ∧ st.pendingFrames > 1 then
      { st with frameDropCount := st.frameDropCount + 1 }
    else
      let st1 := { st with frameCount := st.frameCount + 1
                           lastFrameSentTime := now }
      if blobOk then
        { st1 with isFrameBeingProcessed := true
                   pendingFrames := st1.pendingFrames + 1
                   sendCount := st1.sendCount + 1
                   processingTimeoutWarning := true }
      else st1

/-- Embeds `startFrameCapture`: guarded by `isStreaming`, resets the throttling
variables and arms the capture interval. -/
def startFrameCapture (s : Settings) (st : ClientState) : ClientState :=
  if st.isStreaming then st
  else
    { st with isStreaming := true
              pendingFrames := 0
              lastFrameSentTime := 0
              currentAdaptiveFrameRate := s.frameRate
              processingLatencies := []
              frameDropCount := 0
              frameIntervalActive := true }

/-- Embeds `stopFrameCapture`: clears the streaming flag and cancels the capture
interval (and nothing else). -/
def stopFrameCapture (st : ClientState) : ClientState :=
  { st with isStreaming := false, frameIntervalActive := false }

/-- Embeds `video.onloadedmetadata` after `initCamera` succeeds: start capture, then
arm the processing failsafe. -/
def onSessionStart (s : Settings) (now : ℤ) (st : ClientState) : ClientState :=
  setupProcessingFailsafe now (startFrameCapture s st)

/-- The `visibilitychange` listener with `document.hidden` true. -/
def onTabHidden (st : ClientState) : ClientState :=
  stopFrameCapture st

/-- The `visibilitychange` listener with the tab visible again
(`currentStream && !isStreaming` restarts capture). -/
def onTabVisible (s : Settings) (hasStream : Bool) (st : ClientState) : ClientState :=
  if hasStream ∧ ¬st.isStreaming then startFrameCapture s st else st

/-- Both `disconnect` handlers in registration order: stop capture, then
re-arm the processing failsafe. -/
def onDisconnect (now : ℤ) (st : ClientState) : ClientState :=
  setupProcessingFailsafe now (stopFrameCapture st)

/-- The `connect` handler's synchronous resets (camera re-init and capture
restart happen later, via `onSessionStart`). -/
def onConnect (st : ClientState) : ClientState :=
  { st with processingLatencies := []
            frameDropCount := 0
            pendingFrames := 0 }

/-- The synchronous part of the restart-feed button handler: leave fallback,
clear both the failsafe and stall timers, reset frame tracking, and stop
capture (camera re-init is deferred). -/
def onRestartFeed (now : ℤ) (st : ClientState) : ClientState :=
  let st1 := if st.fallbackMode then disableFallbackMode st else st
  let st2 := { st1 with processingFailsafeTimer := none
                        processingTimeoutWarning := false
                        frameCount := 0
                        pendingFrames := 0
                        lastProcessedFrameTime := now }
  stopFrameCapture st2

/-- Events driving the controller, one per handler/callback of the script. -/
inductive Ev where
  | sessionStart (now : ℤ)
  | tick (videoReady : Bool) (now : ℤ) (blobOk : Bool)
  | result (now : ℤ) (msg : FrameMsg) (threw decodeOk : Bool)
  | stopCapture
  | hidden
  | visible (hasStream : Bool)
  | connected
  | disconnected (now : ℤ)
  | failsafeTimeout (now : ℤ)
  | restartFeed (now : ℤ)
  deriving Repr, DecidableEq

/-- Dispatch one event to its handler. -/
def step (s : Settings) (st : ClientState) (e : Ev) : ClientState :=
  match e with
  | .sessionStart now => onSessionStart s now st
  | .tick v now b => frameTick s v now b st
  | .result now m th d => onProcessedFrame s now m th d st
  | .stopCapture => stopFrameCapture st
  | .hidden => onTabHidden st
  | .visible hs => onTabVisible s hs st
  | .connected => onConnect st
  | .disconnected now => onDisconnect now st
  | .failsafeTimeout now => failsafeFire now st
  | .restartFeed now => onRestartFeed now st

/-- The state reached from script load after a sequence of events. -/
def run (s : Settings) (evs : List Ev) : ClientState :=
  evs.foldl (step s) initState



/-- The rate-adjustment table exactly as the specification words it: first
matching average-latency band, each result clamped to the whole
[min, max] interval. -/
def specRateTable (minR maxR avg r : ℚ) : ℚ :=
  if avg > 2000 then max minR (min maxR (r - 1))
  else if avg > 1000 then max minR (min maxR (r - 0.5))
  else if avg < 300 then max minR (min maxR (r + 0.5))
  else if avg < 500 then max minR (min maxR (r + 0.2))
  else r

/-- Concrete state: Normal display, last success at 10000 ms, failsafe armed. -/
def c1State : ClientState :=
  { initState with
    isStreaming := true
    lastProcessedFrameTime := 10000
    processingFailsafeTimer := some 20000 }

/-- Concrete state with two frames in flight. -/
def c2State : ClientState := { initState with pendingFrames := 2 }

/-- Concrete rate-sequence scenario of the spec's test: default settings
(base 5, min 2, max 10), two 2500 ms samples already in the window, one
frame in flight. -/
def c3State : ClientState :=
  { initState with
    isStreaming := true
    currentAdaptiveFrameRate := 5
    processingLatencies := [2500, 2500]
    pendingFrames := 1 }

/-- Receipt of one valid processed frame echoing timestamp 100 at local time
2600, i.e. a 2500 ms round trip, under default settings. -/
def c3Recv (st : ClientState) : ClientState :=
  onProcessedFrame defaultSettings 2600 ⟨true, 7, 100⟩ false true st

/-- Concrete state with four frames in flight on a tick. -/
def c4State : ClientState :=
  { initState with
    isStreaming := true
    pendingFrames := 4
    currentAdaptiveFrameRate := 5 }

/-- Concrete state whose five most recent latencies are below 500 ms with
nothing pending, but whose whole-window average is 1070 ms. -/
def c5State : ClientState :=
  { initState with
    currentAdaptiveFrameRate := 5
    processingLatencies := [2000, 2000, 2000, 2000, 450, 450, 450, 450, 450]
    pendingFrames := 0 }

/-- Concrete state satisfying every condition of the code's recovery rule. -/
def c5wState : ClientState :=
  { initState with
    currentAdaptiveFrameRate := 2
    processingLatencies := [350, 350, 350, 350]
    pendingFrames := 0 }

/-- Concrete state with all three timers armed. -/
def c6State : ClientState :=
  { initState with
    isStreaming := true
    frameIntervalActive := true
    processingTimeoutWarning := true
    processingFailsafeTimer := some 5000 }

/-- Concrete state with three frames in flight and the processing flag set. -/
def c7State : ClientState :=
  { initState with
    pendingFrames := 3
    isFrameBeingProcessed := true }

/-- Concrete state with one frame in flight and the processing flag set. -/
def c10State : ClientState :=
  { initState with
    pendingFrames := 1
    isFrameBeingProcessed := true }

/-! ### Basic facts about the handlers -/

lemma onProcessedFrame_invalid (s : Settings) (now : ℤ) (msg : FrameMsg)
    (threw decodeOk : Bool) (st : ClientState)
    (h : msg.hasFrame = false ∨ msg.frameLen = 0) :
    onProcessedFrame s now msg threw decodeOk st = st := by
  unfold onProcessedFrame
  rcases h with h | h <;> simp [h]

lemma onProcessedFrame_error (s : Settings) (now : ℤ) (msg : FrameMsg)
    (threw decodeOk : Bool) (st : ClientState)
    (hvf : msg.hasFrame = true) (hlen : msg.frameLen ≠ 0)
    (h : threw = true ∨ decodeOk = false) :
    onProcessedFrame s now msg threw decodeOk st = errorRecover st := by
  unfold onProcessedFrame
  rcases h with h | h
  · simp [hvf, hlen, h]
  · cases threw <;> simp [hvf, hlen, h]

lemma onProcessedFrame_valid (s : Settings) (now : ℤ) (msg : FrameMsg)
    (st : ClientState) (hvf : msg.hasFrame = true) (hlen : msg.frameLen ≠ 0) :
    onProcessedFrame s now msg false true st =
      { st with
        fallbackMode := false
        videoShown := if st.fallbackMode then false else st.videoShown
        processingFailsafeTimer := some (now + 10000)
        lastProcessedFrameTime := now
        processingTimeoutWarning := false
        processingLatencies :=
          (latencyRateUpdate s now msg.timestamp st.pendingFrames
            st.processingLatencies st.currentAdaptiveFrameRate).1
        currentAdaptiveFrameRate :=
          (latencyRateUpdate s now msg.timestamp st.pendingFrames
            st.processingLatencies st.currentAdaptiveFrameRate).2
        pendingFrames := max 0 (st.pendingFrames - 1)
        isFrameBeingProcessed := false } := by
  unfold onProcessedFrame
  cases hfb : st.fallbackMode <;>
    simp [hvf, hlen, hfb, disableFallbackMode, setupProcessingFailsafe]

lemma recoveryAdjust_of_pending_ne (s : Settings) (w : List ℤ) (avg : ℚ)
    (pending : ℤ) (r : ℚ) (h : pending ≠ 0) :
    recoveryAdjust s w avg pending r = r := by
  unfold recoveryAdjust
  split_ifs with h1 h2
  · exact absurd h1.2.1 h
  · rfl
  · rfl

lemma latencyRateUpdate_eq (s : Settings) (now ts : ℤ) (pending : ℤ)
    (lats : List ℤ) (r : ℚ) (hts : ts ≠ 0)
    (had : s.adaptiveFrameRate = true)
    (hlen : 3 ≤ (pushLatency lats (now - ts)).length) :
    latencyRateUpdate s now ts pending lats r =
      (pushLatency lats (now - ts),
        recoveryAdjust s (pushLatency lats (now - ts))
          (movingAvg (pushLatency lats (now - ts))) pending
          (adjustAdaptiveRate s (movingAvg (pushLatency lats (now - ts))) r)) := by
  unfold latencyRateUpdate
  simp [hts, had, hlen]

lemma adjustAdaptiveRate_mem (s : Settings) (avg r : ℚ)
    (hmm : s.minFrameRate ≤ s.maxFrameRate)
    (h1 : s.minFrameRate ≤ r) (h2 : r ≤ s.maxFrameRate) :
    s.minFrameRate ≤ adjustAdaptiveRate s avg r ∧
      adjustAdaptiveRate s avg r ≤ s.maxFrameRate := by
  unfold adjustAdaptiveRate
  split_ifs
  · exact ⟨le_max_left _ _, max_le hmm (by linarith)⟩
  · exact ⟨le_max_left _ _, max_le hmm (by linarith)⟩
  · exact ⟨le_min hmm (by linarith), min_le_left _ _⟩
  · exact ⟨le_min hmm (by linarith), min_le_left _ _⟩
  · exact ⟨h1, h2⟩

lemma recoveryAdjust_mem (s : Settings) (w : List ℤ) (avg : ℚ) (pending : ℤ) (r : ℚ)
    (hb1 : s.minFrameRate ≤ s.frameRate) (hb2 : s.frameRate ≤ s.maxFrameRate)
    (h1 : s.minFrameRate ≤ r) (h2 : r ≤ s.maxFrameRate) :
    s.minFrameRate ≤ recoveryAdjust s w avg pending r ∧
      recoveryAdjust s w avg pending r ≤ s.maxFrameRate := by
  unfold recoveryAdjust
  split_ifs
  · exact ⟨le_min hb1 (by linarith), le_trans (min_le_left _ _) hb2⟩
  · exact ⟨h1, h2⟩
  · exact ⟨h1, h2⟩

lemma latencyRateUpdate_rate_mem (s : Settings) (now ts : ℤ) (pending : ℤ)
    (lats : List ℤ) (r : ℚ)
    (hb1 : s.minFrameRate ≤ s.frameRate) (hb2 : s.frameRate ≤ s.maxFrameRate)
    (h1 : s.minFrameRate ≤ r) (h2 : r ≤ s.maxFrameRate) :
    s.minFrameRate ≤ (latencyRateUpdate s now ts pending lats r).2 ∧
      (latencyRateUpdate s now ts pending lats r).2 ≤ s.maxFrameRate := by
  by_cases hts : ts = 0
  · simp only [latencyRateUpdate, hts, ne_eq, not_true_eq_false, if_false]
    exact ⟨h1, h2⟩
  · by_cases hc : s.adaptiveFrameRate = true ∧ 3 ≤ (pushLatency lats (now - ts)).length
    · rw [latencyRateUpdate_eq s now ts pending lats r hts hc.1 hc.2]
      have ha := adjustAdaptiveRate_mem s (movingAvg (pushLatency lats (now - ts))) r
        (le_trans hb1 hb2) h1 h2
      exact recoveryAdjust_mem s _ _ pending _ hb1 hb2 ha.1 ha.2
    · simp only [latencyRateUpdate, hts, ne_eq, not_false_eq_true, if_true, hc, if_false]
      exact ⟨h1, h2⟩

lemma adjustAdaptiveRate_eq_specRateTable (s : Settings) (avg r : ℚ)
    (hmm : s.minFrameRate ≤ s.maxFrameRate)
    (h1 : s.minFrameRate ≤ r) (h2 : r ≤ s.maxFrameRate) :
    adjustAdaptiveRate s avg r = specRateTable s.minFrameRate s.maxFrameRate avg r := by
  unfold adjustAdaptiveRate specRateTable
  split_ifs
  · rw [min_eq_right (by linarith : r - 1 ≤ s.maxFrameRate)]
  · rw [min_eq_right (by linarith : r - 0.5 ≤ s.maxFrameRate)]
  · rw [max_eq_right (le_min hmm (by linarith))]
  · rw [max_eq_right (le_min hmm (by linarith))]
  · rfl

/-! ### Claim theorems -/

/-- C1: starting from the Normal display state, when the failsafe timeout
fires more than 10 s after the last successful processed frame, the monitor
enters Fallback (local unprocessed video shown) and consumes the timer, so
the transition happens exactly once — a firing in Fallback only consumes the
timer and changes nothing else; and the next successfully decoded
processed-frame result, at any later time, immediately returns to Normal and
rearms the 10 s failsafe timer. -/
theorem failsafe_normal_fallback_cycle :
    (∀ (st : ClientState) (now : ℤ),
      st.fallbackMode = false →
      now - st.lastProcessedFrameTime > 10000 →
      (failsafeFire now st).fallbackMode = true ∧
      (failsafeFire now st).videoShown = true ∧
      (failsafeFire now st).processingFailsafeTimer = none) ∧
    (∀ (st : ClientState) (now : ℤ),
      st.fallbackMode = true →
      failsafeFire now st = { st with processingFailsafeTimer := none }) ∧
    (∀ (s : Settings) (st : ClientState) (now : ℤ) (msg : FrameMsg),
      msg.hasFrame = true → msg.frameLen ≠ 0 →
      (onProcessedFrame s now msg false true st).fallbackMode = false ∧
      (onProcessedFrame s now msg false true st).processingFailsafeTimer
        = some (now + 10000)) := by
  refine ⟨?_, ?_, ?_⟩
  · intro st now h1 h2
    simp [failsafeFire, enableFallbackMode, h1, h2]
  · intro st now h1
    simp [failsafeFire, enableFallbackMode, h1]
  · intro s st now msg hvf hlen
    rw [onProcessedFrame_valid s now msg st hvf hlen]
    exact ⟨rfl, rfl⟩

/-- Witness for C1 at a concrete Normal state: the timeout firing at
20001 ms (10001 ms after the last success) enters Fallback, and a valid
result received at 50000 ms leaves it again. -/
theorem failsafe_normal_fallback_cycle_witness :
    c1State.fallbackMode = false ∧
    (failsafeFire 20001 c1State).fallbackMode = true ∧
    (onProcessedFrame defaultSettings 50000 ⟨true, 4, 0⟩ false true
      (failsafeFire 20001 c1State)).fallbackMode = false := by
  refine ⟨rfl, ?_, ?_⟩
  · exact (failsafe_normal_fallback_cycle.1 c1State 20001 rfl
      (by norm_num [c1State, initState])).1
  · exact (failsafe_normal_fallback_cycle.2.2 defaultSettings
      (failsafeFire 20001 c1State) 50000 ⟨true, 4, 0⟩ rfl (by norm_num)).1

/-- C2 counterexample: an empty-payload processed-frame message leaves
`pendingFrames` at 2, whereas the claimed decrement (floored at 0) would
have produced 1. -/
theorem empty_payload_counterexample :
    (onProcessedFrame defaultSettings 100 ⟨true, 0, 50⟩ false true
      c2State).pendingFrames = 2 ∧
    max 0 (c2State.pendingFrames - 1) = 1 := by
  constructor
  · rw [onProcessedFrame_invalid defaultSettings 100 ⟨true, 0, 50⟩ false true
      c2State (Or.inr rfl)]
    rfl
  · norm_num [c2State, initState]

/-- C2 (amended): a processed-frame message whose payload is missing or
empty is treated as invalid and only logged; the handler returns before any
bookkeeping, leaving the entire client state — `pendingFrames` included —
unchanged, so such messages do not release the transmission gate. -/
theorem empty_payload_leaves_state_unchanged (s : Settings) (now : ℤ)
    (msg : FrameMsg) (threw decodeOk : Bool) (st : ClientState)
    (h : msg.hasFrame = false ∨ msg.frameLen = 0) :
    onProcessedFrame s now msg threw decodeOk st = st :=
  onProcessedFrame_invalid s now msg threw decodeOk st h

/-- Witness for C2 (amended) on the concrete empty message and state. -/
theorem empty_payload_leaves_state_unchanged_witness :
    (FrameMsg.mk true 0 50).frameLen = 0 ∧
    onProcessedFrame defaultSettings 100 ⟨true, 0, 50⟩ false true c2State
      = c2State :=
  ⟨rfl, empty_payload_leaves_state_unchanged defaultSettings 100
    ⟨true, 0, 50⟩ false true c2State (Or.inr rfl)⟩

/-- C6 counterexample: with all three timers armed, session stop (and
tab-hidden) leaves the stall-warning and failsafe timers armed, and
disconnect rearms the failsafe timer instead of cancelling it. -/
theorem timers_survive_stop_counterexample :
    (stopFrameCapture c6State).processingTimeoutWarning = true ∧
    (stopFrameCapture c6State).processingFailsafeTimer = some 5000 ∧
    (onTabHidden c6State).processingTimeoutWarning = true ∧
    (onTabHidden c6State).processingFailsafeTimer = some 5000 ∧
    (onDisconnect 7000 c6State).processingFailsafeTimer = some (7000 + 10000) :=
  ⟨rfl, rfl, rfl, rfl, rfl⟩

/-- C6 (amended): session stop, tab-hidden and transport disconnect each
cancel only the capture-tick interval; the stall-warning timer survives all
three, and the failsafe timer survives stop and tab-hidden and is rearmed
for 10 s from now (not cancelled) by the disconnect handlers. -/
theorem timer_cancellation_exact (st : ClientState) (now : ℤ) :
    (stopFrameCapture st).frameIntervalActive = false ∧
    (stopFrameCapture st).processingTimeoutWarning = st.processingTimeoutWarning ∧
    (stopFrameCapture st).processingFailsafeTimer = st.processingFailsafeTimer ∧
    (onTabHidden st).frameIntervalActive = false ∧
    (onTabHidden st).processingTimeoutWarning = st.processingTimeoutWarning ∧
    (onTabHidden st).processingFailsafeTimer = st.processingFailsafeTimer ∧
    (onDisconnect now st).frameIntervalActive = false ∧
    (onDisconnect now st).processingTimeoutWarning = st.processingTimeoutWarning ∧
    (onDisconnect now st).processingFailsafeTimer = some (now + 10000) :=
  ⟨rfl, rfl, rfl, rfl, rfl, rfl, rfl, rfl, rfl⟩

/-- C7 counterexample: with three frames in flight, one valid result leaves
two frames still awaiting results, yet `isFrameBeingProcessed` is cleared —
it does not remain true while at least one sent frame still awaits a
result. -/
theorem processing_flag_cleared_early_counterexample :
    c7State.isFrameBeingProcessed = true ∧
    (onProcessedFrame defaultSettings 100 ⟨true, 5, 0⟩ false true
      c7State).pendingFrames = 2 ∧
    (onProcessedFrame defaultSettings 100 ⟨true, 5, 0⟩ false true
      c7State).isFrameBeingProcessed = false := by
  rw [onProcessedFrame_valid defaultSettings 100 ⟨true, 5, 0⟩ c7State rfl
    (by norm_num)]
  refine ⟨rfl, ?_, rfl⟩
  show max 0 (c7State.pendingFrames - 1) = 2
  norm_num [c7State, initState]

/-- C7 (amended): on every receipt of a non-empty processed-frame result —
whether it decodes, the decode rejects, or the handler throws —
`pendingFrames` is decremented with a floor of 0 and `isFrameBeingProcessed`
is cleared unconditionally, even while other sent frames still await
results. -/
theorem result_receipt_pending_bookkeeping (s : Settings) (now : ℤ)
    (msg : FrameMsg) (threw decodeOk : Bool) (st : ClientState)
    (hvf : msg.hasFrame = true) (hlen : msg.frameLen ≠ 0) :
    (onProcessedFrame s now msg threw decodeOk st).pendingFrames
      = max 0 (st.pendingFrames - 1) ∧
    (onProcessedFrame s now msg threw decodeOk st).isFrameBeingProcessed
      = false := by
  cases threw with
  | true =>
    rw [onProcessedFrame_error s now msg true decodeOk st hvf hlen (Or.inl rfl)]
    exact ⟨rfl, rfl⟩
  | false =>
    cases decodeOk with
    | false =>
      rw [onProcessedFrame_error s now msg false false st hvf hlen (Or.inr rfl)]
      exact ⟨rfl, rfl⟩
    | true =>
      rw [onProcessedFrame_valid s now msg st hvf hlen]
      exact ⟨rfl, rfl⟩

/-- Witness for C7 (amended) on the concrete three-pending state. -/
theorem result_receipt_pending_bookkeeping_witness :
    (FrameMsg.mk true 5 0).hasFrame = true ∧
    (onProcessedFrame defaultSettings 100 ⟨true, 5, 0⟩ false true
        c7State).pendingFrames = max 0 (c7State.pendingFrames - 1) :=
  ⟨rfl, (result_receipt_pending_bookkeeping defaultSettings 100 ⟨true, 5, 0⟩
    false true c7State rfl (by norm_num)).1⟩

/-- C10: if decoding or rendering a received non-empty processed frame fails
(the bitmap decode rejects or the handler throws), the catch paths still
decrement `pendingFrames` with a floor of 0 and clear
`isFrameBeingProcessed`, so a corrupt but non-empty frame cannot permanently
block the transmission gate. -/
theorem corrupt_frame_still_unblocks_gate (s : Settings) (now : ℤ)
    (msg : FrameMsg) (threw decodeOk : Bool) (st : ClientState)
    (hvf : msg.hasFrame = true) (hlen : msg.frameLen ≠ 0)
    (hfail : threw = true ∨ decodeOk = false) :
    onProcessedFrame s now msg threw decodeOk st = errorRecover st ∧
    (onProcessedFrame s now msg threw decodeOk st).pendingFrames
      = max 0 (st.pendingFrames - 1) ∧
    (onProcessedFrame s now msg threw decodeOk st).isFrameBeingProcessed
      = false := by
  have h := onProcessedFrame_error s now msg threw decodeOk st hvf hlen hfail
  refine ⟨h, ?_, ?_⟩ <;> rw [h] <;> rfl

/-- Witness for C10 on the concrete one-pending state with a failing
decode. -/
theorem corrupt_frame_still_unblocks_gate_witness :
    (FrameMsg.mk true 9 77).frameLen ≠ 0 ∧
    (onProcessedFrame defaultSettings 300 ⟨true, 9, 77⟩ false false
        c10State).pendingFrames = max 0 (c10State.pendingFrames - 1) :=
  ⟨by norm_num, (corrupt_frame_still_unblocks_gate defaultSettings 300
    ⟨true, 9, 77⟩ false false c10State rfl (by norm_num) (Or.inr rfl)).2.1⟩

/-- C3: once the latency window holds at least 3 entries, a latency-sample
evaluation adjusts the rate exactly by the specification's moving-average
table (first matching band, result clamped to [min, max]); in particular
with base 5, min 2, max 10 and consecutive evaluations whose window average
is 2500 ms, the rate follows 5, 4, 3, 2 and a fourth such evaluation stays
clamped at 2. -/
theorem adaptive_rate_follows_spec_table :
    (∀ (s : Settings) (st : ClientState) (now ts : ℤ) (len : ℕ),
      s.adaptiveFrameRate = true →
      st.pendingFrames ≠ 0 →
      ts ≠ 0 → len ≠ 0 →
      s.minFrameRate ≤ s.maxFrameRate →
      s.minFrameRate ≤ st.currentAdaptiveFrameRate →
      st.currentAdaptiveFrameRate ≤ s.maxFrameRate →
      3 ≤ (pushLatency st.processingLatencies (now - ts)).length →
      (onProcessedFrame s now ⟨true, len, ts⟩ false true st).currentAdaptiveFrameRate
        = specRateTable s.minFrameRate s.maxFrameRate
            (movingAvg (pushLatency st.processingLatencies (now - ts)))
            st.currentAdaptiveFrameRate) ∧
    ((c3Recv c3State).currentAdaptiveFrameRate = 4 ∧
      (c3Recv (c3Recv c3State)).currentAdaptiveFrameRate = 3 ∧
      (c3Recv (c3Recv (c3Recv c3State))).currentAdaptiveFrameRate = 2 ∧
      (c3Recv (c3Recv (c3Recv (c3Recv c3State)))).currentAdaptiveFrameRate = 2) := by
  constructor
  · intro s st now ts len had hpend hts hlen hmm h1 h2 hw
    rw [onProcessedFrame_valid s now ⟨true, len, ts⟩ st rfl hlen]
    show (latencyRateUpdate s now ts st.pendingFrames st.processingLatencies
      st.currentAdaptiveFrameRate).2 = _
    rw [latencyRateUpdate_eq s now ts st.pendingFrames st.processingLatencies
      st.currentAdaptiveFrameRate hts had hw]
    dsimp only
    rw [recoveryAdjust_of_pending_ne s _ _ st.pendingFrames _ hpend]
    exact adjustAdaptiveRate_eq_specRateTable s _ _ hmm h1 h2
  · norm_num [c3Recv, c3State, initState, onProcessedFrame, latencyRateUpdate,
      pushLatency, movingAvg, adjustAdaptiveRate, recoveryAdjust,
      setupProcessingFailsafe, disableFallbackMode, errorRecover,
      defaultSettings, lastN]

/-- Witness for C3's general table statement at the concrete 2500 ms
scenario. -/
theorem adaptive_rate_follows_spec_table_witness :
    c3State.pendingFrames ≠ 0 ∧
    (onProcessedFrame defaultSettings 2600 ⟨true, 7, 100⟩ false true
        c3State).currentAdaptiveFrameRate
      = specRateTable defaultSettings.minFrameRate defaultSettings.maxFrameRate
          (movingAvg (pushLatency c3State.processingLatencies (2600 - 100)))
          c3State.currentAdaptiveFrameRate := by
  refine ⟨by norm_num [c3State, initState], ?_⟩
  exact adaptive_rate_follows_spec_table.1 defaultSettings c3State 2600 100 7
    rfl (by norm_num [c3State, initState]) (by norm_num) (by norm_num)
    (by norm_num [defaultSettings])
    (by norm_num [c3State, initState, defaultSettings])
    (by norm_num [c3State, initState, defaultSettings])
    (by norm_num [c3State, initState, pushLatency])

/-- C4: a capture tick with camera data ready that passes the pacing check
while more than `dropThreshold = 3` frames are pending drops the frame: the
drop counter increments by exactly 1, no send is invoked (send count, frame
count, pending count and the stall timer all unchanged), and with adaptive
mode enabled the rate decreases by 0.5 clamped to the configured minimum. -/
theorem hard_drop_branch (s : Settings) (st : ClientState) (now : ℤ)
    (blobOk : Bool)
    (hpace : ¬(((now - st.lastFrameSentTime : ℤ) : ℚ)
      < 1000 / getEffectiveFrameRate s st.currentAdaptiveFrameRate))
    (hpending : st.pendingFrames > 3) :
    (frameTick s true now blobOk st).frameDropCount = st.frameDropCount + 1 ∧
    (frameTick s true now blobOk st).pendingFrames = st.pendingFrames ∧
    (frameTick s true now blobOk st).sendCount = st.sendCount ∧
    (frameTick s true now blobOk st).frameCount = st.frameCount ∧
    (frameTick s true now blobOk st).processingTimeoutWarning
      = st.processingTimeoutWarning ∧
    (s.adaptiveFrameRate = true →
      (frameTick s true now blobOk st).currentAdaptiveFrameRate
        = max s.minFrameRate (st.currentAdaptiveFrameRate - 0.5)) ∧
    (s.adaptiveFrameRate = false →
      (frameTick s true now blobOk st).currentAdaptiveFrameRate
        = st.currentAdaptiveFrameRate) := by
  have hstep : frameTick s true now blobOk st =
      { st with
        frameDropCount := st.frameDropCount + 1
        currentAdaptiveFrameRate :=
          if s.adaptiveFrameRate then
            max s.minFrameRate (st.currentAdaptiveFrameRate - 0.5)
          else st.currentAdaptiveFrameRate } := by
    unfold frameTick
    rw [if_neg (by simp)]
    dsimp only
    rw [if_neg hpace, if_pos hpending]
  rw [hstep]
  refine ⟨rfl, rfl, rfl, rfl, rfl, ?_, ?_⟩ <;> intro h <;> simp [h]

/-- Witness for C4 at the concrete four-pending state on a tick at
1000 ms. -/
theorem hard_drop_branch_witness :
    c4State.pendingFrames > 3 ∧
    (frameTick defaultSettings true 1000 true c4State).frameDropCount
      = c4State.frameDropCount + 1 := by
  have hpace : ¬(((1000 - c4State.lastFrameSentTime : ℤ) : ℚ)
      < 1000 / getEffectiveFrameRate defaultSettings
          c4State.currentAdaptiveFrameRate) := by
    norm_num [c4State, initState, getEffectiveFrameRate, defaultSettings]
  exact ⟨by norm_num [c4State, initState],
    (hard_drop_branch defaultSettings c4State 1000 true hpace
      (by norm_num [c4State, initState])).1⟩

/-- C5 counterexample: at this evaluation the five most recent latencies are
all below 500 ms and `pendingFrames = 0`, yet the whole-window moving
average is 1070 ms, so the code decreases the rate from 5 to 4.5 instead of
increasing it by 0.3 (to 5.3). -/
theorem recovery_rule_counterexample :
    c5State.pendingFrames = 0 ∧
    (∀ l ∈ lastN 5 (pushLatency c5State.processingLatencies (550 - 100)),
      l < 500) ∧
    movingAvg (pushLatency c5State.processingLatencies (550 - 100)) = 1070 ∧
    (onProcessedFrame defaultSettings 550 ⟨true, 7, 100⟩ false true
      c5State).currentAdaptiveFrameRate = 4.5 ∧
    c5State.currentAdaptiveFrameRate + 0.3 = 5.3 ∧
    (4.5 : ℚ) ≠ 5.3 := by
  refine ⟨rfl, ?_, ?_, ?_, ?_, by norm_num⟩
  · decide
  · norm_num [c5State, initState, pushLatency, movingAvg]
  · norm_num [c5State, initState, onProcessedFrame, latencyRateUpdate,
      pushLatency, movingAvg, adjustAdaptiveRate, recoveryAdjust,
      setupProcessingFailsafe, disableFallbackMode, defaultSettings, lastN]
  · norm_num [c5State, initState]

/-- C5 (amended): at a latency-sample evaluation, the recovery rule fires
exactly when adaptive mode is on, the post-push window moving average is
below 400 ms, `pendingFrames` equals 0 (read before the decrement for this
result), the window holds at least 5 entries, the 5 most recent latencies
are all below 500 ms, and the band-adjusted rate is still below the
configured base rate; it then raises the rate by a further 0.3, clamped to
the base rate. -/
theorem recovery_rule_exact_conditions (s : Settings) (st : ClientState)
    (now ts : ℤ) (len : ℕ)
    (had : s.adaptiveFrameRate = true) (hts : ts ≠ 0) (hlen : len ≠ 0)
    (hw5 : 5 ≤ (pushLatency st.processingLatencies (now - ts)).length)
    (havg : movingAvg (pushLatency st.processingLatencies (now - ts)) < 400)
    (hpend : st.pendingFrames = 0)
    (hgood : ∀ l ∈ lastN 5 (pushLatency st.processingLatencies (now - ts)),
      l < 500)
    (hlt : adjustAdaptiveRate s
        (movingAvg (pushLatency st.processingLatencies (now - ts)))
        st.currentAdaptiveFrameRate < s.frameRate) :
    (onProcessedFrame s now ⟨true, len, ts⟩ false true st).currentAdaptiveFrameRate
      = min s.frameRate
          (adjustAdaptiveRate s
            (movingAvg (pushLatency st.processingLatencies (now - ts)))
            st.currentAdaptiveFrameRate + 0.3) := by
  rw [onProcessedFrame_valid s now ⟨true, len, ts⟩ st rfl hlen]
  show (latencyRateUpdate s now ts st.pendingFrames st.processingLatencies
    st.currentAdaptiveFrameRate).2 = _
  rw [latencyRateUpdate_eq s now ts st.pendingFrames st.processingLatencies
    st.currentAdaptiveFrameRate hts had (le_trans (by norm_num) hw5)]
  dsimp only
  unfold recoveryAdjust
  rw [if_pos ⟨havg, hpend, hw5⟩, if_pos ⟨hgood, hlt⟩]

/-- Witness for C5 (amended) at a concrete all-conditions state: five
350 ms samples, rate 2, base 5. -/
theorem recovery_rule_exact_conditions_witness :
    c5wState.pendingFrames = 0 ∧
    (onProcessedFrame defaultSettings 400 ⟨true, 7, 50⟩ false true
        c5wState).currentAdaptiveFrameRate
      = min defaultSettings.frameRate
          (adjustAdaptiveRate defaultSettings
            (movingAvg (pushLatency c5wState.processingLatencies (400 - 50)))
            c5wState.currentAdaptiveFrameRate + 0.3) := by
  refine ⟨rfl, recovery_rule_exact_conditions defaultSettings c5wState 400 50 7
    rfl (by norm_num) (by norm_num)
    (by norm_num [c5wState, initState, pushLatency])
    (by norm_num [c5wState, initState, pushLatency, movingAvg]) rfl
    (by decide) ?_⟩
  norm_num [c5wState, initState, pushLatency, movingAvg, adjustAdaptiveRate,
    defaultSettings]

/-! ### Invariants over event traces -/

lemma step_rate_mem (s : Settings) (st : ClientState) (e : Ev)
    (hb1 : s.minFrameRate ≤ s.frameRate) (hb2 : s.frameRate ≤ s.maxFrameRate)
    (h1 : s.minFrameRate ≤ st.currentAdaptiveFrameRate)
    (h2 : st.currentAdaptiveFrameRate ≤ s.maxFrameRate) :
    s.minFrameRate ≤ (step s st e).currentAdaptiveFrameRate ∧
      (step s st e).currentAdaptiveFrameRate ≤ s.maxFrameRate := by
  have hmm : s.minFrameRate ≤ s.maxFrameRate := le_trans hb1 hb2
  cases e with
  | sessionStart now =>
    simp only [step, onSessionStart, setupProcessingFailsafe, startFrameCapture]
    split_ifs
    · exact ⟨h1, h2⟩
    · exact ⟨hb1, hb2⟩
  | tick v now b =>
    simp only [step, frameTick]
    split_ifs <;>
      first
        | exact ⟨h1, h2⟩
        | exact ⟨le_max_left _ _, max_le hmm (by linarith)⟩
  | result now m th d =>
    show s.minFrameRate ≤ (onProcessedFrame s now m th d st).currentAdaptiveFrameRate ∧
      (onProcessedFrame s now m th d st).currentAdaptiveFrameRate ≤ s.maxFrameRate
    rcases Bool.eq_false_or_eq_true m.hasFrame with hvf | hvf
    · by_cases hlen : m.frameLen = 0
      · rw [onProcessedFrame_invalid s now m th d st (Or.inr hlen)]
        exact ⟨h1, h2⟩
      · rcases Bool.eq_false_or_eq_true th with hth | hth
        · rw [hth, onProcessedFrame_error s now m true d st hvf hlen (Or.inl rfl)]
          exact ⟨h1, h2⟩
        · rcases Bool.eq_false_or_eq_true d with hd | hd
          · rw [hth, hd, onProcessedFrame_valid s now m st hvf hlen]
            exact latencyRateUpdate_rate_mem s now m.timestamp st.pendingFrames
              st.processingLatencies st.currentAdaptiveFrameRate hb1 hb2 h1 h2
          · rw [hth, hd, onProcessedFrame_error s now m false false st hvf hlen
              (Or.inr rfl)]
            exact ⟨h1, h2⟩
    · rw [onProcessedFrame_invalid s now m th d st (Or.inl hvf)]
      exact ⟨h1, h2⟩
  | stopCapture => exact ⟨h1, h2⟩
  | hidden => exact ⟨h1, h2⟩
  | visible hs =>
    simp only [step, onTabVisible, startFrameCapture]
    split_ifs
    · exact ⟨h1, h2⟩
    · exact ⟨hb1, hb2⟩
    · exact ⟨h1, h2⟩
  | connected => exact ⟨h1, h2⟩
  | disconnected now => exact ⟨h1, h2⟩
  | failsafeTimeout now =>
    simp only [step, failsafeFire, enableFallbackMode]
    split_ifs <;> exact ⟨h1, h2⟩
  | restartFeed now =>
    simp only [step, onRestartFeed, disableFallbackMode, stopFrameCapture]
    split_ifs <;> exact ⟨h1, h2⟩

lemma foldl_rate_mem (s : Settings)
    (hb1 : s.minFrameRate ≤ s.frameRate) (hb2 : s.frameRate ≤ s.maxFrameRate) :
    ∀ (l : List Ev) (st : ClientState),
      s.minFrameRate ≤ st.currentAdaptiveFrameRate →
      st.currentAdaptiveFrameRate ≤ s.maxFrameRate →
      s.minFrameRate ≤ (l.foldl (step s) st).currentAdaptiveFrameRate ∧
        (l.foldl (step s) st).currentAdaptiveFrameRate ≤ s.maxFrameRate := by
  intro l
  induction l with
  | nil => exact fun st h1 h2 => ⟨h1, h2⟩
  | cons e t ih =>
    intro st h1 h2
    have h := step_rate_mem s st e hb1 hb2 h1 h2
    exact ih _ h.1 h.2

/-- C8: for every state reachable from a session start by any sequence of
controller events (ticks, result receipts, stops, tab visibility changes,
connects, disconnects, failsafe firings, feed restarts), the adaptive rate
satisfies `min ≤ current ≤ max` throughout, provided the configured base
rate lies within the configured [min, max] bounds. -/
theorem adaptive_rate_always_clamped (s : Settings) (t0 : ℤ) (evs : List Ev)
    (hb1 : s.minFrameRate ≤ s.frameRate) (hb2 : s.frameRate ≤ s.maxFrameRate) :
    s.minFrameRate ≤
        (run s (Ev.sessionStart t0 :: evs)).currentAdaptiveFrameRate ∧
      (run s (Ev.sessionStart t0 :: evs)).currentAdaptiveFrameRate
        ≤ s.maxFrameRate := by
  have hstart : (step s initState (Ev.sessionStart t0)).currentAdaptiveFrameRate
      = s.frameRate := by
    simp [step, onSessionStart, setupProcessingFailsafe, startFrameCapture,
      initState]
  have h := foldl_rate_mem s hb1 hb2 evs (step s initState (Ev.sessionStart t0))
    (by rw [hstart]; exact hb1) (by rw [hstart]; exact hb2)
  exact h

/-- Witness for C8 with default settings over a session start followed by a
tick and a valid result receipt. -/
theorem adaptive_rate_always_clamped_witness :
    defaultSettings.minFrameRate ≤ defaultSettings.frameRate ∧
    defaultSettings.minFrameRate ≤
      (run defaultSettings [Ev.sessionStart 0, Ev.tick true 1000 true,
        Ev.result 1500 ⟨true, 3, 1000⟩ false true]).currentAdaptiveFrameRate := by
  refine ⟨by norm_num [defaultSettings], ?_⟩
  exact (adaptive_rate_always_clamped defaultSettings 0
    [Ev.tick true 1000 true, Ev.result 1500 ⟨true, 3, 1000⟩ false true]
    (by norm_num [defaultSettings]) (by norm_num [defaultSettings])).1

lemma step_pending_nonneg (s : Settings) (st : ClientState) (e : Ev)
    (h : 0 ≤ st.pendingFrames) : 0 ≤ (step s st e).pendingFrames := by
  cases e with
  | sessionStart now =>
    simp only [step, onSessionStart, setupProcessingFailsafe, startFrameCapture]
    split_ifs
    · exact h
    · exact le_refl 0
  | tick v now b =>
    simp only [step, frameTick]
    split_ifs <;> first | exact h | exact le_trans h (by dsimp only; linarith)
  | result now m th d =>
    show 0 ≤ (onProcessedFrame s now m th d st).pendingFrames
    rcases Bool.eq_false_or_eq_true m.hasFrame with hvf | hvf
    · by_cases hlen : m.frameLen = 0
      · rw [onProcessedFrame_invalid s now m th d st (Or.inr hlen)]
        exact h
      · rcases Bool.eq_false_or_eq_true th with hth | hth
        · rw [hth, onProcessedFrame_error s now m true d st hvf hlen (Or.inl rfl)]
          exact le_max_left 0 _
        · rcases Bool.eq_false_or_eq_true d with hd | hd
          · rw [hth, hd, onProcessedFrame_valid s now m st hvf hlen]
            exact le_max_left 0 _
          · rw [hth, hd, onProcessedFrame_error s now m false false st hvf hlen
              (Or.inr rfl)]
            exact le_max_left 0 _
    · rw [onProcessedFrame_invalid s now m th d st (Or.inl hvf)]
      exact h
  | stopCapture => exact h
  | hidden => exact h
  | visible hs =>
    simp only [step, onTabVisible, startFrameCapture]
    split_ifs
    · exact h
    · exact le_refl 0
    · exact h
  | connected => exact le_refl 0
  | disconnected now => exact h
  | failsafeTimeout now =>
    simp only [step, failsafeFire, enableFallbackMode]
    split_ifs <;> exact h
  | restartFeed now =>
    simp only [step, onRestartFeed, disableFallbackMode, stopFrameCapture]
    exact le_refl 0

/-- C9: `pendingFrames` is never negative in any state reachable from
script load by any sequence of controller events — in particular under
arbitrarily many result receipts, duplicates and late messages after resets
included — because every decrement clamps at 0. -/
theorem pending_frames_never_negative (s : Settings) (evs : List Ev) :
    0 ≤ (run s evs).pendingFrames := by
  have h : ∀ (l : List Ev) (st : ClientState), 0 ≤ st.pendingFrames →
      0 ≤ (l.foldl (step s) st).pendingFrames := by
    intro l
    induction l with
    | nil => exact fun st h => h
    | cons e t ih => exact fun st h => ih _ (step_pending_nonneg s st e h)
  exact h evs initState (le_refl 0)

end SafeVision
